import Mathlib

/-!
Shallow embedding of the `vector_search` package (files `database.py`,
`llm.py`, `processors.py`) and verification of its specification.

Modelling conventions:
- Python floats are modelled as exact rationals `ℚ`; every concrete value
  appearing in the development is exactly representable in float32, so no
  rounding behaviour is relevant to the properties proved here.
- A Python exception is modelled as `Except PyErr`; `PyErr.assertionError`
  is the assertion raised inside the faiss wrapper when a vector's length
  disagrees with the index dimension, `PyErr.keyError` is a missing
  dictionary key.
- The two on-disk artifacts (`vector_index.faiss`, `vector_data.pkl`) are
  modelled by `Disk`; an artifact is absent, present-but-unreadable
  (`corrupt`, standing for any load that raises), or present with a value.
- Python dictionaries holding document metadata are mutable heap objects;
  aliasing is modelled by an explicit `Heap` of metadata dictionaries and
  a `metaRef` address stored in each document.
-/

namespace VectorSearch

/-- A metadata dictionary: ordered association list of string keys/values,
the model of the mutable Python `dict` stored under a document's
`"metadata"` key. -/
abbrev MetaDict := List (String × String)

/-- The heap of metadata dictionaries; an address is an index into it. -/
abbrev Heap := List MetaDict

/-- Dereference a metadata dictionary address. -/
def heapRead (h : Heap) (addr : Nat) : MetaDict := h.getD addr []

/-- Python `d[key] = val` on an association list: replace in place if the
key is present (preserving order), otherwise append. -/
def dictSet : MetaDict → String → String → MetaDict
  | [], key, val => [(key, val)]
  | kv :: rest, key, val =>
    if kv.1 = key then (key, val) :: rest else kv :: dictSet rest key val

/-- Mutate the dictionary at `addr` through the heap. -/
def heapWrite (h : Heap) (addr : Nat) (key val : String) : Heap :=
  h.set addr (dictSet (heapRead h addr) key val)

/-- A stored document dictionary. `id` is the value under the `"id"` key if
present (`add_vector` reads it without checking). `metaRef` is the heap
address of the metadata dictionary (a nested mutable object).
`similarity_score` is the optional `"similarity_score"` key that `search`
writes on its result dictionaries. -/
structure Doc where
  id : Option String
  text : String
  metaRef : Nat
  similarity_score : Option ℚ
deriving Repr, DecidableEq, Inhabited

/-- Python `dict.copy()`: a new top-level dictionary with the same
key/value bindings.  Nested objects are not copied, so the `metaRef`
address is shared between the copy and the original. -/
def Doc.copy (d : Doc) : Doc := d

/-- The Python exceptions the embedded operations can raise. -/
inductive PyErr where
  | assertionError
  | keyError (key : String)
deriving Repr, DecidableEq

/-- `faiss.IndexFlatL2`: a flat brute-force index of dimension `d` whose
storage `xb` is the ordered list of added vectors. -/
structure IndexFlatL2 where
  d : Nat
  xb : List (List ℚ)
deriving Repr, DecidableEq

/-- `index.ntotal`: number of stored vectors. -/
def IndexFlatL2.ntotal (idx : IndexFlatL2) : Nat := idx.xb.length

/-- `index.add(np.array([vector]))`: the faiss Python wrapper asserts that
the input width equals `self.d` before storing; on success the vector is
appended to the storage. -/
def IndexFlatL2.add (idx : IndexFlatL2) (v : List ℚ) : Except PyErr IndexFlatL2 :=
  if v.length = idx.d then Except.ok { idx with xb := idx.xb ++ [v] }
  else Except.error PyErr.assertionError

/-- Squared Euclidean distance (what `IndexFlatL2` computes and returns as
its "distances"). -/
def sqDist (x y : List ℚ) : ℚ := ((x.zip y).map (fun p => (p.1 - p.2) ^ 2)).sum

/-- Comparison used to model faiss result ordering: ascending squared
distance, ties broken by ascending stored index (a deterministic
refinement of the library's ascending-distance contract). -/
def distLe (a b : ℚ × Nat) : Prop := a.1 < b.1 ∨ (a.1 = b.1 ∧ a.2 ≤ b.2)

instance : DecidableRel distLe := fun a b =>
  inferInstanceAs (Decidable (a.1 < b.1 ∨ (a.1 = b.1 ∧ a.2 ≤ b.2)))

instance : IsTotal (ℚ × Nat) distLe :=
  ⟨by
    intro a b
    rcases lt_trichotomy a.1 b.1 with h | h | h
    · exact Or.inl (Or.inl h)
    · rcases Nat.le_total a.2 b.2 with h2 | h2
      · exact Or.inl (Or.inr ⟨h, h2⟩)
      · exact Or.inr (Or.inr ⟨h.symm, h2⟩)
    · exact Or.inr (Or.inl h)⟩

instance : IsTrans (ℚ × Nat) distLe :=
  ⟨by
    intro a b c hab hbc
    rcases hab with h | ⟨he, h2⟩
    · rcases hbc with g | ⟨ge, g2⟩
      · exact Or.inl (h.trans g)
      · exact Or.inl (ge ▸ h)
    · rcases hbc with g | ⟨ge, g2⟩
      · exact Or.inl (he ▸ g)
      · exact Or.inr ⟨he.trans ge, h2.trans g2⟩⟩

/-- `index.search(np.array([q]), k)`: asserts the query width equals
`self.d`, then returns the `k` nearest stored vectors as (squared
distance, index) pairs in ascending distance order.  Since callers pass
`k ≤ ntotal`, the `-1` "no result" sentinel never occurs and is not
modelled. -/
def IndexFlatL2.searchVec (idx : IndexFlatL2) (q : List ℚ) (k : Nat) :
    Except PyErr (List (ℚ × Nat)) :=
  if q.length = idx.d then
    Except.ok ((((List.range idx.xb.length).map
      (fun i => (sqDist q (idx.xb.getD i []), i))).insertionSort distLe).take k)
  else Except.error PyErr.assertionError

/-- On-disk artifact: missing file, file whose load raises (any corrupt or
mismatched content), or file with successfully loadable content. -/
inductive Artifact (α : Type) where
  | absent
  | corrupt
  | good (val : α)
deriving Repr, DecidableEq

/-- The two companion files `index_file` and `data_file`. -/
structure Disk where
  indexFile : Artifact IndexFlatL2
  dataFile : Artifact (List Doc)
deriving Repr, DecidableEq

/-- A storage location with neither artifact present. -/
def emptyDisk : Disk := { indexFile := Artifact.absent, dataFile := Artifact.absent }

/-- `os.path.exists` on an artifact path. -/
def pathExists {α : Type} : Artifact α → Bool
  | Artifact.absent => false
  | Artifact.corrupt => true
  | Artifact.good _ => true

/-- The in-memory state of a `FAISSVectorDB`: configured `dimension`, the
faiss index, and the parallel `documents` list. -/
structure DBState where
  dimension : Nat
  index : IndexFlatL2
  documents : List Doc
deriving Repr, DecidableEq

/-- `_create_new_index`: a fresh empty index of the configured dimension
and an empty document list. -/
def createNewIndex (dimension : Nat) : IndexFlatL2 × List Doc :=
  ({ d := dimension, xb := [] }, [])

/-- The `try` body of `__init__`: `faiss.read_index` followed by
`pickle.load`; any raise from either is caught by the `except`, modelled
as `none`. -/
def loadArtifacts (disk : Disk) : Option (IndexFlatL2 × List Doc) :=
  match disk.indexFile, disk.dataFile with
  | Artifact.good idx, Artifact.good docs => some (idx, docs)
  | _, _ => none

/-- `FAISSVectorDB.__init__(dimension, index_file, data_file)`: if both
files exist, try to load them, falling back to `_create_new_index` when
the load raises; otherwise create a new index.  The constructor never
propagates a load failure (it is a total function of the disk state). -/
def initDB (dimension : Nat) (disk : Disk) : DBState :=
  if pathExists disk.indexFile && pathExists disk.dataFile then
    match loadArtifacts disk with
    | some (idx, docs) => { dimension := dimension, index := idx, documents := docs }
    | none =>
      { dimension := dimension, index := (createNewIndex dimension).1,
        documents := (createNewIndex dimension).2 }
  else
    { dimension := dimension, index := (createNewIndex dimension).1,
      documents := (createNewIndex dimension).2 }

/-- `_save`: write both artifacts, overwriting whatever was there. -/
def saveDB (s : DBState) : Disk :=
  { indexFile := Artifact.good s.index, dataFile := Artifact.good s.documents }

/-- `add_vector(vector, document)`: `index.add` (faiss dimension assert),
append to `documents`, `_save`, then the success log line reads
`document["id"]` — a `KeyError` if the key is absent, raised only after
the in-memory state and both artifacts were already updated. -/
def add_vector (s : DBState) (disk : Disk) (vector : List ℚ) (document : Doc) :
    Except PyErr Unit × DBState × Disk :=
  match s.index.add vector with
  | Except.error e => (Except.error e, s, disk)
  | Except.ok idx =>
    let s2 : DBState := { s with index := idx, documents := s.documents ++ [document] }
    let disk2 := saveDB s2
    match document.id with
    | none => (Except.error (PyErr.keyError "id"), s2, disk2)
    | some _ => (Except.ok (), s2, disk2)

/-- `search(query_vector, k)`: empty index short-circuits to `[]` (before
the query vector is ever inspected); otherwise faiss search with
`k_to_search = min k ntotal`, then each hit is a `dict.copy()` of the
stored document with a `"similarity_score"` of `1 - distance/2` written
into the copy. -/
def search (s : DBState) (query_vector : List ℚ) (k : Nat) : Except PyErr (List Doc) :=
  if s.index.ntotal = 0 then
    Except.ok []
  else
    match s.index.searchVec query_vector (min k s.index.ntotal) with
    | Except.error e => Except.error e
    | Except.ok hits =>
      Except.ok (hits.map (fun p =>
        let doc := Doc.copy (s.documents.getD p.2 default)
        { doc with similarity_score := some (1 - p.1 / 2) }))

/-- `os.remove` guarded by `os.path.exists`: no call (hence no error) when
the file is absent, removal otherwise. -/
def removeIfExists {α : Type} : Artifact α → Artifact α
  | Artifact.absent => Artifact.absent
  | Artifact.corrupt => Artifact.absent
  | Artifact.good _ => Artifact.absent

/-- `clear()`: `_create_new_index` then delete both artifacts if present. -/
def clear (s : DBState) (disk : Disk) : DBState × Disk :=
  ({ s with index := (createNewIndex s.dimension).1,
            documents := (createNewIndex s.dimension).2 },
   { indexFile := removeIfExists disk.indexFile,
     dataFile := removeIfExists disk.dataFile })

/-- Reachable (trace, state, disk) triples of the store lifecycle: a fresh
construction against an empty storage location, a successful `add_vector`,
a `clear`, or a process restart (re-running `__init__`, with any
dimension argument, against the current storage location).  The trace
records the (vector, document) pairs successfully added since the last
point the store was empty. -/
inductive ReachableT : List (List ℚ × Doc) → DBState → Disk → Prop where
  | fresh (dimension : Nat) :
      ReachableT [] (initDB dimension emptyDisk) emptyDisk
  | addStep {tr : List (List ℚ × Doc)} {s : DBState} {disk : Disk}
      {s2 : DBState} {disk2 : Disk} (v : List ℚ) (document : Doc)
      (hprev : ReachableT tr s disk)
      (hok : add_vector s disk v document = (Except.ok (), s2, disk2)) :
      ReachableT (tr ++ [(v, document)]) s2 disk2
  | clearStep {tr : List (List ℚ × Doc)} {s : DBState} {disk : Disk}
      (hprev : ReachableT tr s disk) :
      ReachableT [] (clear s disk).1 (clear s disk).2
  | restart {tr : List (List ℚ × Doc)} {s : DBState} {disk : Disk}
      (dimension : Nat) (hprev : ReachableT tr s disk) :
      ReachableT tr (initDB dimension disk) disk

/-! ## `llm.py`: `generate_answer_from_results`

The external OpenAI chat call of one attempt is modelled as an oracle
`OpenAICall` mapping the attempt number to either the extracted answer
string or the exception message of that attempt.  The embedding captures
the retry control flow of the source: `max_retries = 3`, `retry_delay`
starting at 2 and doubling after each sleep, sleeping only when
`attempt < max_retries - 1`, and on final failure returning the string
`"Error generating answer: " ++ e` instead of raising. -/

/-- Outcome of the external chat-completion call on a given attempt
number (0-based). -/
abbrev OpenAICall := Nat → Except String String

/-- Observable outcome of `generate_answer_from_results`: the returned
string, how many times the collaborator was invoked, and the list of
`time.sleep` durations in order. -/
structure GenResult where
  answer : String
  calls : Nat
  sleeps : List Nat
deriving Repr, DecidableEq

/-- The `for attempt in range(max_retries)` loop, with `remaining` the
number of attempts left (`max_retries - attempt`). -/
def retryLoop (call : OpenAICall) (attempt remaining retry_delay : Nat) : GenResult :=
  match remaining with
  | 0 => { answer := "", calls := 0, sleeps := [] }
  | r + 1 =>
    match call attempt with
    | Except.ok answer => { answer := answer, calls := 1, sleeps := [] }
    | Except.error e =>
      if r = 0 then
        { answer := "Error generating answer: " ++ e, calls := 1, sleeps := [] }
      else
        let rest := retryLoop call (attempt + 1) r (retry_delay * 2)
        { answer := rest.answer, calls := rest.calls + 1, sleeps := retry_delay :: rest.sleeps }

/-- `generate_answer_from_results`, retry structure only: 3 attempts,
initial delay 2 seconds. -/
def generate_answer_from_results (call : OpenAICall) : GenResult :=
  retryLoop call 0 3 2

/-! ## `processors.py`: `process_json`

JSON values are an inductive tree.  `json.loads`/decoding is elided: the
claims condition on an input whose top level parses successfully, so the
embedding takes the parsed value.  `jsonDumps` models `json.dumps` with
its default separators; `pyStr`/`pyRepr` model Python `str()`/`repr()` on
values produced by `json.loads`.  String rendering of `repr` is faithful
for strings containing no quote, backslash, or control characters, which
covers every string value used in the development. -/

/-- A parsed JSON value. -/
inductive JVal where
  | null
  | bool (b : Bool)
  | num (n : Int)
  | str (s : String)
  | arr (elems : List JVal)
  | obj (entries : List (String × JVal))
deriving Repr

mutual

/-- `json.dumps` with default separators. -/
def jsonDumps : JVal → String
  | JVal.null => "null"
  | JVal.bool true => "true"
  | JVal.bool false => "false"
  | JVal.num n => toString n
  | JVal.str s => "\"" ++ s ++ "\""
  | JVal.arr elems => "[" ++ jsonDumpsArr elems ++ "]"
  | JVal.obj entries => "\x7b" ++ jsonDumpsObj entries ++ "\x7d"

/-- Elements of a JSON array, `", "`-separated. -/
def jsonDumpsArr : List JVal → String
  | [] => ""
  | [v] => jsonDumps v
  | v :: rest => jsonDumps v ++ ", " ++ jsonDumpsArr rest

/-- Entries of a JSON object, `", "`-separated, `": "` between key and
value. -/
def jsonDumpsObj : List (String × JVal) → String
  | [] => ""
  | [(key, v)] => "\"" ++ key ++ "\": " ++ jsonDumps v
  | (key, v) :: rest => "\"" ++ key ++ "\": " ++ jsonDumps v ++ ", " ++ jsonDumpsObj rest

end

mutual

/-- Python `repr()` on a value produced by `json.loads`. -/
def pyRepr : JVal → String
  | JVal.null => "None"
  | JVal.bool true => "True"
  | JVal.bool false => "False"
  | JVal.num n => toString n
  | JVal.str s => "\x27" ++ s ++ "\x27"
  | JVal.arr elems => "[" ++ pyReprArr elems ++ "]"
  | JVal.obj entries => "\x7b" ++ pyReprObj entries ++ "\x7d"

/-- Elements of a Python list repr, `", "`-separated. -/
def pyReprArr : List JVal → String
  | [] => ""
  | [v] => pyRepr v
  | v :: rest => pyRepr v ++ ", " ++ pyReprArr rest

/-- Entries of a Python dict repr. -/
def pyReprObj : List (String × JVal) → String
  | [] => ""
  | [(key, v)] => "\x27" ++ key ++ "\x27: " ++ pyRepr v
  | (key, v) :: rest => "\x27" ++ key ++ "\x27: " ++ pyRepr v ++ ", " ++ pyReprObj rest

end

/-- Python `str()` on a value produced by `json.loads`: the bare string
for `str` values, `repr` otherwise. -/
def pyStr : JVal → String
  | JVal.str s => s
  | v => pyRepr v

/-- A metadata value in a processor-produced document: string, number, or
original JSON value. -/
inductive MVal where
  | s (v : String)
  | n (v : Nat)
  | j (v : JVal)
deriving Repr

/-- A document dictionary as produced by the processors. -/
structure JDoc where
  id : String
  text : String
  metadata : List (String × MVal)
deriving Repr, Inhabited

/-- One iteration of the `for i, item in enumerate(data)` loop of
`process_json` for a top-level list: dictionaries are serialized with
`json.dumps`, every other element (including nested lists) goes through
`str()`. -/
def jsonListItemDoc (i : Nat) (item : JVal) : JDoc :=
  match item with
  | JVal.obj _ =>
    { id := "json_" ++ toString i, text := jsonDumps item,
      metadata := [("source", MVal.s "json"), ("index", MVal.n i), ("original", MVal.j item)] }
  | _ =>
    { id := "json_" ++ toString i, text := pyStr item,
      metadata := [("source", MVal.s "json"), ("index", MVal.n i), ("original", MVal.j item)] }

/-- `process_json` on a successfully parsed top-level value. -/
def process_json : JVal → List JDoc
  | JVal.arr items =>
      (List.range items.length).map (fun i => jsonListItemDoc i (items.getD i JVal.null))
  | JVal.obj entries =>
      entries.map (fun kv =>
        { id := "json_" ++ kv.1,
          text := match kv.2 with
            | JVal.obj _ => jsonDumps kv.2
            | JVal.arr _ => jsonDumps kv.2
            | v => pyStr v,
          metadata :=
            [("source", MVal.s "json"), ("key", MVal.s kv.1), ("original", MVal.j kv.2)] })
  | data =>
      [{ id := "json_0", text := pyStr data,
         metadata := [("source", MVal.s "json"), ("original", MVal.j data)] }]

/-! ## Observers and concrete fixtures -/

/-- The similarity score of a result document (0 when absent; result
documents always carry one). -/
def scoreOf (d : Doc) : ℚ := d.similarity_score.getD 0

/-- Ids returned by a successful search, in result order. -/
def idsOfSearch (s : DBState) (q : List ℚ) (k : Nat) : List (Option String) :=
  match search s q k with
  | Except.ok l => l.map Doc.id
  | Except.error _ => []

/-- Similarity scores returned by a successful search, in result order. -/
def scoresOfSearch (s : DBState) (q : List ℚ) (k : Nat) : List ℚ :=
  match search s q k with
  | Except.ok l => l.map scoreOf
  | Except.error _ => []

/-- Example stored document. -/
def docA : Doc := { id := some "a", text := "ta", metaRef := 0, similarity_score := none }

/-- Example stored document. -/
def docB : Doc := { id := some "b", text := "tb", metaRef := 1, similarity_score := none }

/-- Example stored document. -/
def docC : Doc := { id := some "c", text := "tc", metaRef := 2, similarity_score := none }

/-- Example document dictionary lacking the `"id"` key. -/
def docNoId : Doc := { id := none, text := "tn", metaRef := 0, similarity_score := none }

/-- State after one successful add to a fresh dimension-1 store. -/
def sEx1 : DBState := (add_vector (initDB 1 emptyDisk) emptyDisk [(0 : ℚ)] docA).2.1

/-- Disk after one successful add to a fresh dimension-1 store. -/
def dEx1 : Disk := (add_vector (initDB 1 emptyDisk) emptyDisk [(0 : ℚ)] docA).2.2

/-- State-and-disk step combinator for chaining adds. -/
def stepAdd (sd : DBState × Disk) (v : List ℚ) (document : Doc) : DBState × Disk :=
  ((add_vector sd.1 sd.2 v document).2.1, (add_vector sd.1 sd.2 v document).2.2)

/-- Dimension-1 store holding vectors `[0]`, `[1]`, `[2]` (Euclidean
distances 0, 1, 2 from the query `[0]`) paired with `docA`, `docB`,
`docC`. -/
def sdEx3 : DBState × Disk :=
  stepAdd (stepAdd (stepAdd (initDB 1 emptyDisk, emptyDisk) [(0 : ℚ)] docA) [(1 : ℚ)] docB)
    [(2 : ℚ)] docC

/-- The result document of searching the one-document store `sEx1`. -/
def rEx1 : Doc := { docA with similarity_score := some 1 }

/-- Example heap: address 0 holds `docA`'s metadata dictionary. -/
def hpEx : Heap := [[("source", "json")]]

/-- An answer-generation oracle that fails on every attempt. -/
def allFail : OpenAICall := fun _ => Except.error "boom"

/-- An answer-generation oracle with two transient failures followed by
success. -/
def failFailOk : OpenAICall := fun attempt =>
  match attempt with
  | 0 => Except.error "transient0"
  | 1 => Except.error "transient1"
  | _ => Except.ok "final answer"

/-! ## Helper lemmas -/

/-- Removal always leaves the artifact absent, whether or not the file
existed. -/
theorem removeIfExists_eq {α : Type} (a : Artifact α) :
    removeIfExists a = Artifact.absent := by
  cases a <;> rfl

/-- Lifecycle invariant: in every reachable configuration the index
storage is exactly the vectors of the trace, the document list is exactly
the documents of the trace, and the disk is either the untouched empty
location (only while the trace is empty) or a saved copy of the current
state. -/
theorem reachable_inv {tr : List (List ℚ × Doc)} {s : DBState} {disk : Disk}
    (h : ReachableT tr s disk) :
    s.index.xb = tr.map Prod.fst ∧ s.documents = tr.map Prod.snd ∧
      ((disk = emptyDisk ∧ tr = []) ∨ disk = saveDB s) := by
  induction h with
  | fresh dimension =>
      exact ⟨rfl, rfl, Or.inl ⟨rfl, rfl⟩⟩
  | addStep v document hprev hok ih =>
      rename_i tr1 s1 disk1 s2 disk2
      obtain ⟨ih1, ih2, -⟩ := ih
      simp only [add_vector] at hok
      split at hok
      · exact absurd (congrArg Prod.fst hok) (by simp)
      · rename_i idx heq
        rw [IndexFlatL2.add] at heq
        split at heq
        · obtain rfl : ({ s1.index with xb := s1.index.xb ++ [v] } : IndexFlatL2) = idx := by
            injection heq
          split at hok
          · exact absurd (congrArg Prod.fst hok) (by simp)
          · injection hok with h1 h23
            injection h23 with h2 h3
            subst h2; subst h3
            refine ⟨?_, ?_, Or.inr rfl⟩
            · simp [ih1]
            · simp [ih2]
        · exact absurd heq (by simp)
  | clearStep hprev ih =>
      refine ⟨rfl, rfl, Or.inl ⟨?_, rfl⟩⟩
      simp [clear, emptyDisk, removeIfExists_eq]
  | restart dimension hprev ih =>
      obtain ⟨ih1, ih2, hd⟩ := ih
      rcases hd with ⟨hdisk, htr⟩ | hdisk
      · subst hdisk; subst htr
        exact ⟨rfl, rfl, Or.inl ⟨rfl, rfl⟩⟩
      · subst hdisk
        exact ⟨ih1, ih2, Or.inr rfl⟩

/-- `search` reads only the index and the document list. -/
theorem search_congr {s1 s2 : DBState} (hi : s1.index = s2.index)
    (hd : s1.documents = s2.documents) (q : List ℚ) (k : Nat) :
    search s1 q k = search s2 q k := by
  simp only [search, hi, hd]

/-- Shape of a successful `search`: either the empty-index short-circuit,
or the mapped, sorted, truncated hit list. -/
theorem search_ok_shape {s : DBState} {q : List ℚ} {k : Nat} {results : List Doc}
    (hok : search s q k = Except.ok results) :
    (s.index.ntotal = 0 ∧ results = []) ∨
    (s.index.ntotal ≠ 0 ∧ q.length = s.index.d ∧
      results = ((((List.range s.index.xb.length).map
          (fun i => (sqDist q (s.index.xb.getD i []), i))).insertionSort distLe).take
            (min k s.index.ntotal)).map
          (fun p => { s.documents.getD p.2 default with
                        similarity_score := some (1 - p.1 / 2) })) := by
  by_cases h0 : s.index.ntotal = 0
  · left
    refine ⟨h0, ?_⟩
    simp only [search, if_pos h0, Except.ok.injEq] at hok
    exact hok.symm
  · right
    refine ⟨h0, ?_⟩
    simp only [search, if_neg h0, IndexFlatL2.searchVec] at hok
    by_cases hq : q.length = s.index.d
    · rw [if_pos hq] at hok
      simp only [Except.ok.injEq, Doc.copy] at hok
      exact ⟨hq, hok.symm⟩
    · rw [if_neg hq] at hok
      exact absurd hok (by simp)

/-- Every document returned by a successful `search` is the stored
document at some valid index, shallow-copied with its similarity score
set from the squared distance of the corresponding stored vector. -/
theorem search_mem_inv {s : DBState} {q : List ℚ} {k : Nat} {results : List Doc}
    (hok : search s q k = Except.ok results) {r : Doc} (hr : r ∈ results) :
    ∃ i, i < s.index.ntotal ∧
      r = { s.documents.getD i default with
              similarity_score := some (1 - sqDist q (s.index.xb.getD i []) / 2) } := by
  rcases search_ok_shape hok with ⟨-, hres⟩ | ⟨-, -, hres⟩
  · subst hres; cases hr
  · subst hres
    obtain ⟨p, hp, hfr⟩ := List.mem_map.mp hr
    have hp2 := List.take_subset _ _ hp
    rw [List.mem_insertionSort] at hp2
    obtain ⟨i, hi, hpi⟩ := List.mem_map.mp hp2
    rw [List.mem_range] at hi
    subst hpi
    exact ⟨i, hi, hfr.symm⟩

/-- A successful `search` lists its results in weakly decreasing
similarity-score order (equivalently, ascending distance order). -/
theorem search_ok_pairwise {s : DBState} {q : List ℚ} {k : Nat} {results : List Doc}
    (hok : search s q k = Except.ok results) :
    results.Pairwise (fun a b => scoreOf b ≤ scoreOf a) := by
  rcases search_ok_shape hok with ⟨-, hres⟩ | ⟨-, -, hres⟩
  · subst hres; exact List.Pairwise.nil
  · subst hres
    rw [List.pairwise_map]
    have hsorted := List.sorted_insertionSort distLe
      ((List.range s.index.xb.length).map (fun i => (sqDist q (s.index.xb.getD i []), i)))
    have htake := hsorted.sublist (List.take_sublist (min k s.index.ntotal) _)
    refine htake.imp ?_
    intro a b hab
    have hd : a.1 ≤ b.1 := by
      rcases hab with h | ⟨h, -⟩
      · exact le_of_lt h
      · exact le_of_eq h
    simp only [scoreOf, Option.getD_some]
    linarith

/-- The one-add configuration is reachable. -/
theorem reachEx1 : ReachableT [([(0 : ℚ)], docA)] sEx1 dEx1 :=
  @ReachableT.addStep [] (initDB 1 emptyDisk) emptyDisk sEx1 dEx1 [(0 : ℚ)] docA
    (ReachableT.fresh 1) rfl

/-- The one-add state, explicitly. -/
theorem sEx1_eq :
    sEx1 = { dimension := 1, index := { d := 1, xb := [[0]] }, documents := [docA] } := rfl

/-- The three-add state, explicitly. -/
theorem sdEx3_fst :
    sdEx3.1 = { dimension := 1, index := { d := 1, xb := [[0], [1], [2]] },
                documents := [docA, docB, docC] } := rfl

/-- Concrete evaluation: searching the one-document store returns the
stored document copied with similarity score 1. -/
theorem searchEx1 : search sEx1 [(0 : ℚ)] 1 = Except.ok [rEx1] := by
  rw [sEx1_eq]
  norm_num [search, IndexFlatL2.searchVec, IndexFlatL2.ntotal, sqDist, List.insertionSort,
    List.orderedInsert, distLe, Doc.copy, List.range_succ, rEx1, docA]

/-- Concrete evaluation: result order of the three-vector store. -/
theorem idsEx3 : idsOfSearch sdEx3.1 [(0 : ℚ)] 3 = [some "a", some "b", some "c"] := by
  rw [idsOfSearch, sdEx3_fst]
  norm_num [search, IndexFlatL2.searchVec, IndexFlatL2.ntotal, sqDist, List.insertionSort,
    List.orderedInsert, distLe, Doc.copy, List.range_succ, docA, docB, docC]

/-- Concrete evaluation: similarity scores of the three-vector store. -/
theorem scoresEx3 : scoresOfSearch sdEx3.1 [(0 : ℚ)] 3 = [1, 1/2, -1] := by
  rw [scoresOfSearch, sdEx3_fst]
  norm_num [search, IndexFlatL2.searchVec, IndexFlatL2.ntotal, sqDist, List.insertionSort,
    List.orderedInsert, distLe, Doc.copy, scoreOf, List.range_succ]

/-! ## Claim theorems -/

/-- C1: in every reachable store configuration — fresh or loaded
construction, any sequence of successful adds, clears, restarts — the
index element count equals the document-list length, and the vector at
position `i` is the one added together with the document at position `i`
(both equal the respective components of the add trace). -/
theorem c1_parallel_invariant {tr : List (List ℚ × Doc)} {s : DBState} {disk : Disk}
    (h : ReachableT tr s disk) :
    s.index.ntotal = s.documents.length ∧
      s.index.xb = tr.map Prod.fst ∧ s.documents = tr.map Prod.snd := by
  obtain ⟨h1, h2, -⟩ := reachable_inv h
  refine ⟨?_, h1, h2⟩
  simp [IndexFlatL2.ntotal, h1, h2]

/-- Witness for C1 at the concrete one-add configuration. -/
theorem c1_parallel_invariant_witness :
    sEx1.index.ntotal = sEx1.documents.length ∧
      sEx1.index.xb = [([(0 : ℚ)], docA)].map Prod.fst ∧
      sEx1.documents = [([(0 : ℚ)], docA)].map Prod.snd :=
  c1_parallel_invariant reachEx1

/-- C2 (amended): an `add_vector` whose vector length differs from the
index dimension fails with the faiss assertion and leaves both the state
and the disk unchanged; a `search` with a wrong-length query fails the
same way on a non-empty store; but on an empty store `search` returns
`Except.ok []` before the query length is ever checked. -/
theorem c2_dimension_enforcement :
    (∀ (s : DBState) (disk : Disk) (v : List ℚ) (document : Doc),
        s.index.d = s.dimension → v.length ≠ s.dimension →
        add_vector s disk v document = (Except.error PyErr.assertionError, s, disk)) ∧
    (∀ (s : DBState) (q : List ℚ) (k : Nat),
        s.index.d = s.dimension → s.index.ntotal ≠ 0 → q.length ≠ s.dimension →
        search s q k = Except.error PyErr.assertionError) ∧
    (∀ (s : DBState) (q : List ℚ) (k : Nat),
        s.index.ntotal = 0 → search s q k = Except.ok []) := by
  refine ⟨?_, ?_, ?_⟩
  · intro s disk v document hd hv
    simp [add_vector, IndexFlatL2.add, hd, hv]
  · intro s q k hd h0 hq
    simp [search, IndexFlatL2.searchVec, h0, hd, hq]
  · intro s q k h0
    simp [search, h0]

/-- Witness for C2 at concrete wrong-length calls. -/
theorem c2_dimension_enforcement_witness :
    add_vector (initDB 2 emptyDisk) emptyDisk [(5 : ℚ)] docA
        = (Except.error PyErr.assertionError, initDB 2 emptyDisk, emptyDisk) ∧
    search sEx1 [(0 : ℚ), (0 : ℚ)] 3 = Except.error PyErr.assertionError ∧
    search (initDB 2 emptyDisk) [(5 : ℚ)] 5 = Except.ok [] :=
  ⟨c2_dimension_enforcement.1 (initDB 2 emptyDisk) emptyDisk [(5 : ℚ)] docA rfl (by decide),
   c2_dimension_enforcement.2.1 sEx1 [(0 : ℚ), (0 : ℚ)] 3 rfl (by decide) (by decide),
   c2_dimension_enforcement.2.2 (initDB 2 emptyDisk) [(5 : ℚ)] 5 rfl⟩

/-- C2 counterexample: on an empty dimension-2 store, `search` with a
length-1 query succeeds with `[]` instead of failing with a dimension
error, because the empty-index short-circuit runs first. -/
theorem c2_counterexample :
    [(5 : ℚ)].length ≠ (initDB 2 emptyDisk).dimension ∧
    (initDB 2 emptyDisk).index.d = (initDB 2 emptyDisk).dimension ∧
    search (initDB 2 emptyDisk) [(5 : ℚ)] 5 = Except.ok [] :=
  ⟨by decide, rfl, rfl⟩

/-- C3: searching after a restart (fresh construction, any dimension
argument, against the storage location of a reachable configuration)
returns exactly the results of searching the pre-restart store, for every
query and every `k`. -/
theorem c3_roundtrip {tr : List (List ℚ × Doc)} {s : DBState} {disk : Disk}
    (h : ReachableT tr s disk) (dimension : Nat) (q : List ℚ) (k : Nat) :
    search (initDB dimension disk) q k = search s q k := by
  obtain ⟨h1, -, hd⟩ := reachable_inv h
  rcases hd with ⟨hdisk, htr⟩ | hdisk
  · subst hdisk; subst htr
    have hs : s.index.ntotal = 0 := by simp [IndexFlatL2.ntotal, h1]
    have hf : (initDB dimension emptyDisk).index.ntotal = 0 := rfl
    simp [search, hs, hf]
  · subst hdisk
    exact search_congr rfl rfl q k

/-- Witness for C3: restart of the one-add store at a different dimension
argument. -/
theorem c3_roundtrip_witness :
    search (initDB 7 dEx1) [(0 : ℚ)] 5 = search sEx1 [(0 : ℚ)] 5 :=
  c3_roundtrip reachEx1 7 [(0 : ℚ)] 5

/-- C5: whenever either artifact is missing or either load raises, the
constructor returns normally with a fresh empty store of the requested
dimension (it is a total function, so no load failure propagates). -/
theorem c5_init_fallback (dimension : Nat) (disk : Disk)
    (h : disk.indexFile = Artifact.absent ∨ disk.dataFile = Artifact.absent ∨
         disk.indexFile = Artifact.corrupt ∨ disk.dataFile = Artifact.corrupt) :
    initDB dimension disk =
      { dimension := dimension, index := { d := dimension, xb := [] }, documents := [] } := by
  obtain ⟨fi, fd⟩ := disk
  cases fi <;> cases fd <;> simp_all [initDB, pathExists, loadArtifacts, createNewIndex]

/-- Witness for C5: a corrupt index artifact next to a good data artifact
still yields a fresh store. -/
theorem c5_init_fallback_witness :
    initDB 3 { indexFile := Artifact.corrupt, dataFile := Artifact.good [docA] } =
      { dimension := 3, index := { d := 3, xb := [] }, documents := [] } :=
  c5_init_fallback 3 { indexFile := Artifact.corrupt, dataFile := Artifact.good [docA] }
    (Or.inr (Or.inr (Or.inl rfl)))

/-- C6: `clear` is idempotent — a second `clear` reproduces exactly the
state and disk of the first, which is the empty store of the same
dimension with both artifacts removed; the model is total, so the second
call raises no error even though both files are already gone. -/
theorem c6_clear_idempotent (s : DBState) (disk : Disk) :
    clear (clear s disk).1 (clear s disk).2 = clear s disk ∧
    (clear s disk).1.dimension = s.dimension ∧
    (clear s disk).1.index.xb = [] ∧ (clear s disk).1.documents = [] ∧
    (clear s disk).2 = emptyDisk := by
  refine ⟨?_, rfl, rfl, rfl, ?_⟩
  · simp [clear, createNewIndex, removeIfExists_eq]
  · simp [clear, emptyDisk, removeIfExists_eq]

/-- C10: adding a correctly-dimensioned vector with a document lacking
the `"id"` key fails with `KeyError`, but only after the vector and the
document were appended in memory and both artifacts persisted — the
failed call leaves the store mutated and saved. -/
theorem c10_add_missing_id (s : DBState) (disk : Disk) (v : List ℚ) (document : Doc)
    (hdim : v.length = s.index.d) (hid : document.id = none) :
    add_vector s disk v document =
      (Except.error (PyErr.keyError "id"),
        { s with index := { s.index with xb := s.index.xb ++ [v] },
                 documents := s.documents ++ [document] },
        saveDB { s with index := { s.index with xb := s.index.xb ++ [v] },
                        documents := s.documents ++ [document] }) := by
  simp [add_vector, IndexFlatL2.add, hdim, hid]

/-- Witness for C10 at a concrete id-less document. -/
theorem c10_add_missing_id_witness :
    add_vector (initDB 1 emptyDisk) emptyDisk [(3 : ℚ)] docNoId =
      (Except.error (PyErr.keyError "id"),
        { initDB 1 emptyDisk with
            index := { (initDB 1 emptyDisk).index with
                         xb := (initDB 1 emptyDisk).index.xb ++ [[(3 : ℚ)]] },
            documents := (initDB 1 emptyDisk).documents ++ [docNoId] },
        saveDB { initDB 1 emptyDisk with
                   index := { (initDB 1 emptyDisk).index with
                                xb := (initDB 1 emptyDisk).index.xb ++ [[(3 : ℚ)]] },
                   documents := (initDB 1 emptyDisk).documents ++ [docNoId] }) :=
  c10_add_missing_id (initDB 1 emptyDisk) emptyDisk [(3 : ℚ)] docNoId rfl rfl

/-- C4 (amended): search results are ordered from most to least similar
(weakly decreasing similarity score, i.e. ascending squared distance),
and each result's score is `1 - d/2` for `d` the squared Euclidean
distance of the corresponding stored vector from the query; three stored
vectors at Euclidean distances 0, 1, 2 from the query come back in that
order with scores `1, 1/2, -1` (the distance the formula halves is the
squared one, so the third score is `-1`, not `0`). -/
theorem c4_order_and_scores :
    (∀ (s : DBState) (q : List ℚ) (k : Nat) (results : List Doc),
        search s q k = Except.ok results →
        results.Pairwise (fun a b => scoreOf b ≤ scoreOf a) ∧
        ∀ r ∈ results, ∃ i, i < s.index.ntotal ∧
          r.similarity_score = some (1 - sqDist q (s.index.xb.getD i []) / 2)) ∧
    idsOfSearch sdEx3.1 [(0 : ℚ)] 3 = [some "a", some "b", some "c"] ∧
    scoresOfSearch sdEx3.1 [(0 : ℚ)] 3 = [1, 1/2, -1] := by
  refine ⟨?_, idsEx3, scoresEx3⟩
  intro s q k results hok
  refine ⟨search_ok_pairwise hok, ?_⟩
  intro r hr
  obtain ⟨i, hi, hri⟩ := search_mem_inv hok hr
  exact ⟨i, hi, by rw [hri]⟩

/-- Witness for C4 at the concrete one-document search. -/
theorem c4_order_and_scores_witness :
    [rEx1].Pairwise (fun a b => scoreOf b ≤ scoreOf a) ∧
    ∀ r ∈ [rEx1], ∃ i, i < sEx1.index.ntotal ∧
      r.similarity_score = some (1 - sqDist [(0 : ℚ)] (sEx1.index.xb.getD i []) / 2) :=
  c4_order_and_scores.1 sEx1 [(0 : ℚ)] 1 [rEx1] searchEx1

/-- C4 counterexample: the spec example's scores are wrong.  With stored
vectors at Euclidean distances 0, 1, 2 from the query (squared distances
`0^2, 1^2, 2^2`), the returned scores are `[1, 1/2, -1]`, not the claimed
`[1, 1/2, 0]`, because faiss returns squared distances. -/
theorem c4_counterexample :
    sqDist [(0 : ℚ)] [(0 : ℚ)] = 0 ^ 2 ∧ sqDist [(0 : ℚ)] [(1 : ℚ)] = 1 ^ 2 ∧
    sqDist [(0 : ℚ)] [(2 : ℚ)] = 2 ^ 2 ∧
    scoresOfSearch sdEx3.1 [(0 : ℚ)] 3 = [1, 1/2, -1] ∧
    scoresOfSearch sdEx3.1 [(0 : ℚ)] 3 ≠ [1, 1/2, 0] := by
  refine ⟨by norm_num [sqDist], by norm_num [sqDist], by norm_num [sqDist], scoresEx3, ?_⟩
  rw [scoresEx3]
  norm_num

/-- C7 (amended): the collaborator is invoked at most 3 times; two
failures followed by a success yield exactly 3 invocations with the
successful answer returned and backoff sleeps of 2 s then 4 s; three
failures yield the error-embedding string with the same two sleeps (the
8 s delay of the doubling schedule is never slept, since after the third
failure the function returns immediately). -/
theorem c7_retry_behavior :
    (∀ call : OpenAICall, (generate_answer_from_results call).calls ≤ 3) ∧
    (∀ (call : OpenAICall) (e0 e1 ans : String),
        call 0 = Except.error e0 → call 1 = Except.error e1 → call 2 = Except.ok ans →
        generate_answer_from_results call = { answer := ans, calls := 3, sleeps := [2, 4] }) ∧
    (∀ (call : OpenAICall) (e0 e1 e2 : String),
        call 0 = Except.error e0 → call 1 = Except.error e1 → call 2 = Except.error e2 →
        generate_answer_from_results call =
          { answer := "Error generating answer: " ++ e2, calls := 3, sleeps := [2, 4] }) := by
  refine ⟨?_, ?_, ?_⟩
  · intro call
    rcases h0 : call 0 with e0 | a0 <;> rcases h1 : call 1 with e1 | a1 <;>
      rcases h2 : call 2 with e2 | a2 <;>
      simp [generate_answer_from_results, retryLoop, h0, h1, h2]
  · intro call e0 e1 ans h0 h1 h2
    simp [generate_answer_from_results, retryLoop, h0, h1, h2]
  · intro call e0 e1 e2 h0 h1 h2
    simp [generate_answer_from_results, retryLoop, h0, h1, h2]

/-- Witness for C7 at concrete oracles. -/
theorem c7_retry_behavior_witness :
    (generate_answer_from_results failFailOk).calls ≤ 3 ∧
    generate_answer_from_results failFailOk =
      { answer := "final answer", calls := 3, sleeps := [2, 4] } ∧
    generate_answer_from_results allFail =
      { answer := "Error generating answer: boom", calls := 3, sleeps := [2, 4] } :=
  ⟨c7_retry_behavior.1 failFailOk,
   c7_retry_behavior.2.1 failFailOk "transient0" "transient1" "final answer" rfl rfl rfl,
   c7_retry_behavior.2.2 allFail "boom" "boom" "boom" rfl rfl rfl⟩

/-- C7 counterexample: in the all-failures run the delays slept between
attempts are 2 s and 4 s only — not the claimed 2 s, 4 s, 8 s; no 8 s
sleep ever happens. -/
theorem c7_counterexample :
    (generate_answer_from_results allFail).sleeps = [2, 4] ∧
    (generate_answer_from_results allFail).sleeps ≠ [2, 4, 8] ∧
    8 ∉ (generate_answer_from_results allFail).sleeps :=
  ⟨rfl, by decide, by decide⟩

/-- C8 (amended): for a top-level JSON sequence the normalizer emits one
document per element with id `json_<index>`, metadata carrying the
original element and its positional index, and text that is the
JSON-serialized form for mapping elements but the Python string form for
every other element — including nested sequences, which are NOT
JSON-serialized. -/
theorem c8_json_list_normalization (items : List JVal) (i : Nat) (h : i < items.length) :
    (process_json (JVal.arr items)).length = items.length ∧
    ((process_json (JVal.arr items)).getD i default).id = "json_" ++ toString i ∧
    ((process_json (JVal.arr items)).getD i default).text =
      (match items.getD i JVal.null with
        | JVal.obj entries => jsonDumps (JVal.obj entries)
        | v => pyStr v) ∧
    ((process_json (JVal.arr items)).getD i default).metadata =
      [("source", MVal.s "json"), ("index", MVal.n i),
       ("original", MVal.j (items.getD i JVal.null))] := by
  have hget : (process_json (JVal.arr items)).getD i default
      = jsonListItemDoc i (items.getD i JVal.null) := by
    simp [process_json, List.getD_eq_getElem?_getD, List.getElem?_map, List.getElem?_range, h]
  refine ⟨by simp [process_json], ?_, ?_, ?_⟩ <;> rw [hget] <;>
    cases hv : items.getD i JVal.null <;> simp [jsonListItemDoc]

/-- Witness for C8 at a concrete one-element list. -/
theorem c8_json_list_normalization_witness :
    (process_json (JVal.arr [JVal.str "x"])).length = [JVal.str "x"].length ∧
    ((process_json (JVal.arr [JVal.str "x"])).getD 0 default).id = "json_" ++ toString 0 ∧
    ((process_json (JVal.arr [JVal.str "x"])).getD 0 default).text =
      (match [JVal.str "x"].getD 0 JVal.null with
        | JVal.obj entries => jsonDumps (JVal.obj entries)
        | v => pyStr v) ∧
    ((process_json (JVal.arr [JVal.str "x"])).getD 0 default).metadata =
      [("source", MVal.s "json"), ("index", MVal.n 0),
       ("original", MVal.j ([JVal.str "x"].getD 0 JVal.null))] :=
  c8_json_list_normalization [JVal.str "x"] 0 (by decide)

/-- C8 counterexample: a nested sequence element is rendered with Python
`str()` (single quotes), not JSON-serialized (double quotes): on input
`[["a"]]` the emitted text differs from the claimed JSON form. -/
theorem c8_counterexample :
    ((process_json (JVal.arr [JVal.arr [JVal.str "a"]])).getD 0 default).text
        = "[\x27a\x27]" ∧
    jsonDumps (JVal.arr [JVal.str "a"]) = "[\"a\"]" ∧
    ("[\x27a\x27]" : String) ≠ "[\"a\"]" :=
  ⟨rfl, rfl, by decide⟩

/-- C9 (amended): every result of a successful search is a shallow copy
of the stored document at a valid index — same id and text, the score
written only on the copy (search itself never mutates the store in the
model) — but the copy shares its metadata dictionary address with the
stored document, so a heap write through a returned document's metadata
reference is a write to the stored document's metadata. -/
theorem c9_shallow_copy_aliasing :
    (∀ (s : DBState) (q : List ℚ) (k : Nat) (results : List Doc),
        search s q k = Except.ok results →
        ∀ r ∈ results, ∃ i, i < s.index.ntotal ∧
          r.id = (s.documents.getD i default).id ∧
          r.text = (s.documents.getD i default).text ∧
          r.metaRef = (s.documents.getD i default).metaRef ∧
          r.similarity_score = some (1 - sqDist q (s.index.xb.getD i []) / 2)) ∧
    (∀ (hp : Heap) (addr : Nat) (key val : String), addr < hp.length →
        heapRead (heapWrite hp addr key val) addr = dictSet (heapRead hp addr) key val) := by
  refine ⟨?_, ?_⟩
  · intro s q k results hok r hr
    obtain ⟨i, hi, hri⟩ := search_mem_inv hok hr
    subst hri
    exact ⟨i, hi, rfl, rfl, rfl, rfl⟩
  · intro hp addr key val hlt
    simp [heapRead, heapWrite, List.getD_eq_getElem?_getD, List.getElem?_set_self hlt]

/-- Witness for C9 at the concrete one-document search and heap. -/
theorem c9_shallow_copy_aliasing_witness :
    (∀ r ∈ [rEx1], ∃ i, i < sEx1.index.ntotal ∧
        r.id = (sEx1.documents.getD i default).id ∧
        r.text = (sEx1.documents.getD i default).text ∧
        r.metaRef = (sEx1.documents.getD i default).metaRef ∧
        r.similarity_score = some (1 - sqDist [(0 : ℚ)] (sEx1.index.xb.getD i []) / 2)) ∧
    heapRead (heapWrite hpEx 0 "source" "mutated") 0
      = dictSet (heapRead hpEx 0) "source" "mutated" :=
  ⟨c9_shallow_copy_aliasing.1 sEx1 [(0 : ℚ)] 1 [rEx1] searchEx1,
   c9_shallow_copy_aliasing.2 hpEx 0 "source" "mutated" (by decide)⟩

/-- C9 counterexample: mutating a returned document's metadata mutates
the stored document's metadata, because `dict.copy()` shares the nested
metadata dictionary: after writing through the returned document's
reference, the stored document's metadata reads back changed. -/
theorem c9_counterexample :
    search sEx1 [(0 : ℚ)] 1 = Except.ok [rEx1] ∧
    rEx1.metaRef = (sEx1.documents.getD 0 default).metaRef ∧
    heapRead hpEx ((sEx1.documents.getD 0 default).metaRef) = [("source", "json")] ∧
    heapRead (heapWrite hpEx rEx1.metaRef "source" "mutated")
        ((sEx1.documents.getD 0 default).metaRef) = [("source", "mutated")] ∧
    ([("source", "mutated")] : MetaDict) ≠ [("source", "json")] :=
  ⟨searchEx1, rfl, rfl, by decide, by decide⟩

end VectorSearch
